import Mathlib

/-!
# Verification of the social-networking backend concepts

Shallow embedding of the repository's concept classes (Texting, MoodMapping,
VideoCalling) and of the call-related HTTP routes, with theorems settling the
frozen claims about them.

Modelling conventions:
* Mongo `ObjectId`s are opaque identifiers; they are modelled as `Nat` with
  `equals` as equality.
* `Date` timestamps are modelled as `Nat` ticks of a logical clock carried in
  the state; `new Date()` reads the clock and advances it.
* A `DocCollection` is a list of documents in insertion order together with the
  next fresh id.  `createOne` appends, `readOne`/`find?` returns the first
  match, `partialUpdateOne` patches the first match, `deleteOne` removes the
  first match, `readMany` with a sort option filters and then sorts.
* A thrown concept error is an `Except.error`; the pre-call state is unchanged
  in that case (exception semantics), so an operation that returns `.error`
  creates, updates and deletes nothing.
-/

namespace Backend

/-- The error taxonomy of `concepts/errors.ts` as used by the concept code:
`BadValuesError`, `NotFoundError`, `NotAllowedError`, plus plain `Error`
thrown directly by the routes. -/
inductive ConceptError where
  | badValues (msg : String)
  | notFound (msg : String)
  | notAllowed (msg : String)
  | generic (msg : String)
deriving Repr, DecidableEq

/-- `partialUpdateOne`: patch the first document matching the filter, leave
the rest unchanged.  When nothing matches, the collection is unchanged. -/
def updateFirst {α : Type} (p : α → Bool) (f : α → α) : List α → List α
  | [] => []
  | x :: xs => if p x then f x :: xs else x :: updateFirst p f xs

/-- `deleteOne`: remove the first document matching the filter. -/
def deleteFirst {α : Type} (p : α → Bool) : List α → List α
  | [] => []
  | x :: xs => if p x then xs else x :: deleteFirst p xs

/-! ## Texting concept (`server/concepts/texting.ts`) -/

/-- `MessageDoc`: sender, recipient, content, timestamp (plus the `BaseDoc`
id). -/
structure MessageDoc where
  _id : Nat
  sender : Nat
  recipient : Nat
  content : String
  timestamp : Nat
deriving Repr, DecidableEq

/-- Ascending-timestamp order used by the `sort timestamp: 1` option of
`getMessagesBetweenUsers`. -/
def tsLe (a b : MessageDoc) : Prop := a.timestamp ≤ b.timestamp

/-- Descending-timestamp order used by the `sort timestamp: -1` option of
`getMessagesForUser`. -/
def tsGe (a b : MessageDoc) : Prop := b.timestamp ≤ a.timestamp

instance : DecidableRel tsLe := fun a b => inferInstanceAs (Decidable (a.timestamp ≤ b.timestamp))
instance : DecidableRel tsGe := fun a b => inferInstanceAs (Decidable (b.timestamp ≤ a.timestamp))
instance : IsTotal MessageDoc tsLe := ⟨fun a b => Nat.le_total a.timestamp b.timestamp⟩
instance : IsTrans MessageDoc tsLe := ⟨fun _ _ _ h h' => Nat.le_trans h h'⟩
instance : IsTotal MessageDoc tsGe := ⟨fun a b => Nat.le_total b.timestamp a.timestamp⟩
instance : IsTrans MessageDoc tsGe := ⟨fun _ _ _ h h' => Nat.le_trans h' h⟩

/-- The `$or` filter of `getMessagesBetweenUsers`: sent `user1 → user2` or
sent `user2 → user1`. -/
def betweenFilter (user1 user2 : Nat) (m : MessageDoc) : Bool :=
  (m.sender == user1 && m.recipient == user2) || (m.sender == user2 && m.recipient == user1)

/-- `TextingConcept.getMessagesBetweenUsers`: `readMany` with the `$or`
filter, sorted ascending by timestamp. -/
def getMessagesBetweenUsers (messages : List MessageDoc) (user1 user2 : Nat) : List MessageDoc :=
  List.insertionSort tsLe (messages.filter (betweenFilter user1 user2))

/-- `TextingConcept.getMessagesForUser`: `readMany` with filter
`recipient = userId`, sorted descending by timestamp. -/
def getMessagesForUser (messages : List MessageDoc) (userId : Nat) : List MessageDoc :=
  List.insertionSort tsGe (messages.filter (fun m => m.recipient == userId))

/-- `TextingConcept.deleteMessage`: `deleteOne` on the id, then the success
message — no existence check, no authorization check, no throw. -/
def deleteMessage (messages : List MessageDoc) (_id : Nat) :
    Except ConceptError (String × List MessageDoc) :=
  .ok ("Message deleted successfully!", deleteFirst (fun m => m._id == _id) messages)

/-- When no element of the list satisfies the filter, `deleteOne` leaves the
collection unchanged. -/
theorem deleteFirst_of_no_match {α : Type} (p : α → Bool) :
    ∀ l : List α, (∀ x ∈ l, p x = false) → deleteFirst p l = l
  | [], _ => rfl
  | x :: xs, h => by
    have hx : p x = false := h x (List.mem_cons_self x xs)
    simp only [deleteFirst, hx, Bool.false_eq_true, if_false, List.cons.injEq, true_and]
    exact deleteFirst_of_no_match p xs fun y hy => h y (List.mem_cons_of_mem x hy)

/-- C5: `getMessagesBetweenUsers(a, b)` returns, as a multiset, exactly the
messages sent `a → b` together with those sent `b → a` (the messages matching
the `$or` of the two directed sender/recipient filters), and the returned
sequence is sorted ascending by timestamp. -/
theorem getMessagesBetweenUsers_spec (messages : List MessageDoc) (user1 user2 : Nat) :
    (getMessagesBetweenUsers messages user1 user2 : Multiset MessageDoc) =
      (messages.filter (fun m =>
        (m.sender == user1 && m.recipient == user2) ||
        (m.sender == user2 && m.recipient == user1)) : Multiset MessageDoc) ∧
    List.Sorted tsLe (getMessagesBetweenUsers messages user1 user2) :=
  ⟨Multiset.coe_eq_coe.mpr (List.perm_insertionSort tsLe _),
   List.sorted_insertionSort tsLe _⟩

/-- C8: `getMessagesForUser(u)` returns, as a multiset, exactly the messages
whose recipient is `u`, sorted descending by timestamp. -/
theorem getMessagesForUser_spec (messages : List MessageDoc) (userId : Nat) :
    (getMessagesForUser messages userId : Multiset MessageDoc) =
      (messages.filter (fun m => m.recipient == userId) : Multiset MessageDoc) ∧
    List.Sorted tsGe (getMessagesForUser messages userId) :=
  ⟨Multiset.coe_eq_coe.mpr (List.perm_insertionSort tsGe _),
   List.sorted_insertionSort tsGe _⟩

/-- C10: `deleteMessage(_id)` returns the success message for every id and
every collection state — it never raises an error and performs no existence or
authorization check; in particular, when no message document has that id it
still succeeds (and the collection is unchanged). -/
theorem deleteMessage_spec (messages : List MessageDoc) (_id : Nat) :
    deleteMessage messages _id =
      .ok ("Message deleted successfully!", deleteFirst (fun m => m._id == _id) messages) ∧
    ((∀ m ∈ messages, m._id ≠ _id) →
      deleteMessage messages _id = .ok ("Message deleted successfully!", messages)) := by
  refine ⟨rfl, fun h => ?_⟩
  have : deleteFirst (fun m => m._id == _id) messages = messages :=
    deleteFirst_of_no_match _ messages fun m hm => by
      simpa using h m hm
  rw [deleteMessage, this]

/-- Witness for C10 at a concrete collection and an id that matches no
document. -/
theorem deleteMessage_spec_witness :
    deleteMessage [⟨0, 1, 2, "hi", 5⟩] 99 =
      .ok ("Message deleted successfully!", [⟨0, 1, 2, "hi", 5⟩]) :=
  (deleteMessage_spec [⟨0, 1, 2, "hi", 5⟩] 99).2 (by decide)

/-! ## MoodMapping concept (the `(user, friend)`-keyed variant)

`setMood` validates the mood against the JavaScript regex
`^\p(Emoji)$` with the `u` flag.  Deciding the Unicode `Emoji` character
property is outside the embedding, so the regex test is a parameter
`emojiTest : String → Bool` of the operations; the empty-string falsiness
check (`!mood`) is kept explicit.  Nothing in the claims depends on which
strings the regex accepts. -/

/-- `MoodDoc`: user, friend, mood string (plus the `BaseDoc` id). -/
structure MoodDoc where
  _id : Nat
  user : Nat
  friend : Nat
  mood : String
deriving Repr, DecidableEq

/-- State of the `moods` collection: documents in insertion order plus the
next fresh id. -/
structure MoodState where
  moods : List MoodDoc
  nextId : Nat
deriving Repr, DecidableEq

/-- The `(user, friend)` pair filter used by `partialUpdateOne`, `readOne`
and `deleteOne` in `setMood` / `getBothMoods` / `removeMood`. -/
def pairFilter (user friend : Nat) (d : MoodDoc) : Bool :=
  d.user == user && d.friend == friend

/-- `MoodMappingConcept.setMood(user, friend, mood)`: rejects a mood failing
the emoji test; then checks for an existing mood document *filtering by
`user` alone*; if one exists it `partialUpdateOne`s the first document
matching the `(user, friend)` pair (a no-op when none matches) and re-reads
that pair; otherwise it creates a new document.  Returns the message and the
document that the source's trailing `readOne` reports. -/
def setMood (emojiTest : String → Bool) (s : MoodState) (user friend : Nat) (mood : String) :
    Except ConceptError (String × Option MoodDoc × MoodState) :=
  if mood == "" || !emojiTest mood then
    .error (.badValues "Mood must be a valid emoji!")
  else
    match s.moods.find? (fun d => d.user == user) with
    | some _ =>
      let moods' := updateFirst (pairFilter user friend) (fun d => { d with mood := mood }) s.moods
      .ok ("Mood updated successfully!", moods'.find? (pairFilter user friend),
           { s with moods := moods' })
    | none =>
      let doc : MoodDoc := ⟨s.nextId, user, friend, mood⟩
      let moods' := s.moods ++ [doc]
      .ok ("Mood set successfully!", moods'.find? (fun d => d._id == s.nextId),
           ⟨moods', s.nextId + 1⟩)

/-- `MoodMappingConcept.getBothMoods(user, friend)`: reads the `(user,
friend)` and `(friend, user)` documents, mapping absence to `none` rather
than an error. -/
def getBothMoods (s : MoodState) (user friend : Nat) : Option String × Option String :=
  ((s.moods.find? (pairFilter user friend)).map MoodDoc.mood,
   (s.moods.find? (pairFilter friend user)).map MoodDoc.mood)

/-- `MoodMappingConcept.removeMood(user, friend)`: `deleteOne` on the
`(user, friend)` pair; throws `NotFoundError` when the deleted count is
zero. -/
def removeMood (s : MoodState) (user friend : Nat) :
    Except ConceptError (String × MoodState) :=
  if s.moods.any (pairFilter user friend) then
    .ok ("Mood removed successfully!", { s with moods := deleteFirst (pairFilter user friend) s.moods })
  else
    .error (.notFound "No mood was set for this user.")

/-- C7: `removeMood(user, friend)` raises `NotFound` exactly when no mood
document for the directed pair exists (so nothing was deleted); when a
document for the pair exists, it succeeds and deletes the (first) such
document. -/
theorem removeMood_spec (s : MoodState) (user friend : Nat) :
    (removeMood s user friend = .error (.notFound "No mood was set for this user.") ↔
      ¬ ∃ d ∈ s.moods, d.user = user ∧ d.friend = friend) ∧
    ((∃ d ∈ s.moods, d.user = user ∧ d.friend = friend) →
      removeMood s user friend =
        .ok ("Mood removed successfully!",
             { s with moods := deleteFirst (pairFilter user friend) s.moods })) := by
  have hany : s.moods.any (pairFilter user friend) = true ↔
      ∃ d ∈ s.moods, d.user = user ∧ d.friend = friend := by
    simp [List.any_eq_true, pairFilter]
  constructor
  · rw [removeMood]
    by_cases h : s.moods.any (pairFilter user friend) = true
    · simp [h, hany.mp h]
    · rw [if_neg h]
      exact iff_of_true rfl fun hex => h (hany.mpr hex)
  · intro hex
    rw [removeMood, if_pos (hany.mpr hex)]

/-- Witness for C7 at a concrete state holding one document for the pair. -/
theorem removeMood_spec_witness :
    removeMood ⟨[⟨0, 1, 2, "a"⟩], 1⟩ 1 2 =
      .ok ("Mood removed successfully!", ⟨[], 1⟩) := by
  have h := (removeMood_spec ⟨[⟨0, 1, 2, "a"⟩], 1⟩ 1 2).2 ⟨⟨0, 1, 2, "a"⟩, by decide, rfl, rfl⟩
  simpa [deleteFirst, pairFilter] using h

/-- `partialUpdateOne` leaves the count of documents satisfying `p`
unchanged when the patch does not affect whether `p` holds. -/
theorem updateFirst_countP {α : Type} (p q : α → Bool) (g : α → α)
    (hg : ∀ x, p (g x) = p x) : ∀ l : List α, (updateFirst q g l).countP p = l.countP p
  | [] => rfl
  | x :: xs => by
    by_cases hq : q x = true
    · simp [updateFirst, hq, List.countP_cons, hg]
    · simp [updateFirst, hq, List.countP_cons, updateFirst_countP p q g hg xs]

/-- `deleteOne` never increases the count of documents satisfying `p`. -/
theorem deleteFirst_countP_le {α : Type} (p q : α → Bool) :
    ∀ l : List α, (deleteFirst q l).countP p ≤ l.countP p
  | [] => Nat.le_refl _
  | x :: xs => by
    by_cases hq : q x = true
    · simp only [deleteFirst, hq, if_true, List.countP_cons]
      exact Nat.le_add_right _ _
    · simp only [deleteFirst, hq, Bool.false_eq_true, if_false, List.countP_cons]
      exact Nat.add_le_add_right (deleteFirst_countP_le p q xs) _

/-- `readOne` on an appended collection skips a prefix with no match. -/
theorem find?_none_append {α : Type} (p : α → Bool) (l₂ : List α) :
    ∀ l₁ : List α, l₁.find? p = none → (l₁ ++ l₂).find? p = l₂.find? p
  | [], _ => rfl
  | x :: xs, h => by
    cases hx : p x with
    | true =>
      rw [List.find?_cons_of_pos _ hx] at h
      exact absurd h (by simp)
    | false =>
      rw [List.find?_cons_of_neg _ (by simp [hx])] at h
      rw [List.cons_append, List.find?_cons_of_neg _ (by simp [hx])]
      exact find?_none_append p l₂ xs h

/-- `partialUpdateOne` on the very filter `p`: when exactly one document
matches `p` and the patch preserves `p`, afterwards exactly the patched
document matches. -/
theorem filter_updateFirst_singleton {α : Type} (p : α → Bool) (g : α → α)
    (hg : ∀ x, p x = true → p (g x) = true) :
    ∀ (l : List α) (d : α), l.filter p = [d] → (updateFirst p g l).filter p = [g d]
  | [], d, hl => by simp at hl
  | x :: xs, d, hl => by
    cases hx : p x with
    | true =>
      rw [List.filter_cons, if_pos hx] at hl
      have hxd := (List.cons_eq_cons.mp hl).1
      have hxs := (List.cons_eq_cons.mp hl).2
      subst hxd
      simp only [updateFirst, hx, if_true]
      rw [List.filter_cons, if_pos (hg x hx), hxs]
    | false =>
      rw [List.filter_cons, if_neg (by simp [hx])] at hl
      simp only [updateFirst, hx, Bool.false_eq_true, if_false]
      rw [List.filter_cons, if_neg (by simp [hx])]
      exact filter_updateFirst_singleton p g hg xs d hl

/-- C6 counterexample state: user `1` already stores a mood for friend
`10`. -/
def moodStateCex : MoodState := ⟨[⟨0, 1, 10, "a"⟩], 1⟩

/-- A stand-in for the emoji regex in the C6 counterexample: it accepts the
two moods that the scenario sets (as the real regex accepts any single
emoji). -/
def emojiTestCex (m : String) : Bool := m == "b" || m == "c"

/-- C6 is false as stated: in the state where user `1` already has a mood
document for friend `10`, calling `setMood` twice for the pair `(1, 20)`
reports success both times (the existence check filters by user alone, so it
takes the update path) yet leaves zero stored mood records for the pair
`(1, 20)` — not exactly one holding the second value. -/
theorem setMood_twice_counterexample :
    setMood emojiTestCex moodStateCex 1 20 "b" =
      .ok ("Mood updated successfully!", none, moodStateCex) ∧
    setMood emojiTestCex moodStateCex 1 20 "c" =
      .ok ("Mood updated successfully!", none, moodStateCex) ∧
    moodStateCex.moods.countP (pairFilter 1 20) = 0 :=
  ⟨rfl, rfl, by decide⟩

/-- Unfolding equation of `updateFirst` on a cons cell. -/
theorem updateFirst_cons {α : Type} (p : α → Bool) (g : α → α) (x : α) (xs : List α) :
    updateFirst p g (x :: xs) = if p x then g x :: xs else x :: updateFirst p g xs := rfl

/-- Every element of `updateFirst p g l` is an element of `l` or the image
under `g` of one. -/
theorem mem_updateFirst {α : Type} (p : α → Bool) (g : α → α) :
    ∀ (l : List α) (y : α), y ∈ updateFirst p g l → y ∈ l ∨ ∃ x ∈ l, y = g x
  | [], y, h => absurd h (List.not_mem_nil y)
  | x :: xs, y, h => by
    by_cases hx : p x = true
    · rw [updateFirst_cons, if_pos hx] at h
      rcases List.mem_cons.mp h with h | h
      · exact Or.inr ⟨x, List.mem_cons_self x xs, h⟩
      · exact Or.inl (List.mem_cons_of_mem x h)
    · rw [updateFirst_cons, if_neg hx] at h
      rcases List.mem_cons.mp h with h | h
      · exact Or.inl (h ▸ List.mem_cons_self x xs)
      · rcases mem_updateFirst p g xs y h with h2 | ⟨z, hz, hyz⟩
        · exact Or.inl (List.mem_cons_of_mem x h2)
        · exact Or.inr ⟨z, List.mem_cons_of_mem x hz, hyz⟩

/-- One successful `setMood` step from a state where the owner has at most
one mood document and any such document is for this friend: it succeeds,
afterwards exactly one document matches the `(user, friend)` pair and holds
the new mood, the owner still has exactly one document, and the owner's
documents are still all for this friend. -/
theorem setMood_step (et : String → Bool) (s : MoodState) (u f : Nat) (m : String)
    (hm : (m == "" || !et m) = false)
    (hcount : s.moods.countP (fun d => d.user == u) ≤ 1)
    (hfriend : ∀ d ∈ s.moods, d.user = u → d.friend = f) :
    ∃ msg r s1,
      setMood et s u f m = .ok (msg, r, s1) ∧
      (∃ d, s1.moods.filter (pairFilter u f) = [d] ∧ d.mood = m) ∧
      s1.moods.countP (fun d => d.user == u) = 1 ∧
      (∀ d ∈ s1.moods, d.user = u → d.friend = f) := by
  rw [setMood]
  rw [hm]
  simp only [Bool.false_eq_true, if_false]
  cases hfind : s.moods.find? (fun d => d.user == u) with
  | none =>
    have hall : ∀ x ∈ s.moods, ¬ ((fun d => d.user == u) x = true) :=
      List.find?_eq_none.mp hfind
    have hnil : s.moods.filter (pairFilter u f) = [] := by
      rw [List.filter_eq_nil_iff]
      intro a ha hpa
      exact hall a ha (by
        have := (Bool.and_eq_true _ _).mp hpa
        exact this.1)
    have hzero : s.moods.countP (fun d => d.user == u) = 0 :=
      List.countP_eq_zero.mpr hall
    refine ⟨_, _, _, rfl, ?_, ?_, ?_⟩
    · refine ⟨⟨s.nextId, u, f, m⟩, ?_, rfl⟩
      rw [List.filter_append, hnil]
      simp [pairFilter]
    · rw [List.countP_append, hzero]
      simp
    · intro d hd hdu
      rcases List.mem_append.mp hd with h | h
      · exact hfriend d h hdu
      · rcases List.mem_singleton.mp h with rfl
        rfl
  | some d0 =>
    have hpd0 := List.find?_some hfind
    have hd0mem : d0 ∈ s.moods := List.mem_of_find?_eq_some hfind
    have hd0u : d0.user = u := by simpa using hpd0
    have hd0f : d0.friend = f := hfriend d0 hd0mem hd0u
    -- the owner's documents form exactly the singleton [d0]
    have huser : s.moods.filter (fun d => d.user == u) = [d0] := by
      have hpos : 0 < s.moods.countP (fun d => d.user == u) :=
        List.countP_pos_iff.mpr ⟨d0, hd0mem, hpd0⟩
      have hone : s.moods.countP (fun d => d.user == u) = 1 :=
        Nat.le_antisymm hcount hpos
      rw [List.countP_eq_length_filter] at hone
      obtain ⟨e, he⟩ := List.length_eq_one.mp hone
      have : d0 ∈ s.moods.filter (fun d => d.user == u) :=
        List.mem_filter.mpr ⟨hd0mem, hpd0⟩
      rw [he] at this
      rw [he, List.mem_singleton.mp this]
    have hpair : s.moods.filter (pairFilter u f) = [d0] := by
      have hcongr : s.moods.filter (pairFilter u f) =
          s.moods.filter (fun d => (d.friend == f) && (d.user == u)) :=
        List.filter_congr fun a _ => by
          rw [pairFilter, Bool.and_comm]
      rw [hcongr, ← List.filter_filter, huser]
      simp [hd0f]
    have hg : ∀ x : MoodDoc, pairFilter u f x = true →
        pairFilter u f ({ x with mood := m }) = true := fun x hx => hx
    refine ⟨_, _, _, rfl, ?_, ?_, ?_⟩
    · exact ⟨{ d0 with mood := m },
        filter_updateFirst_singleton (pairFilter u f) _ hg s.moods d0 hpair, rfl⟩
    · show List.countP (fun d => d.user == u)
          (updateFirst (pairFilter u f) (fun d => { d with mood := m }) s.moods) = 1
      rw [updateFirst_countP (fun d => d.user == u) (pairFilter u f)
          (fun d => { d with mood := m }) (fun x => rfl)]
      rw [List.countP_eq_length_filter, huser]
      rfl
    · intro d hd hdu
      rcases mem_updateFirst (pairFilter u f) _ s.moods d hd with h | ⟨x, hx, rfl⟩
      · exact hfriend d h hdu
      · exact hfriend x hx hdu

/-- C6 amended: in a state where the owner has at most one mood document and
it (if present) is for this friend — in particular in every state reachable
by the concept's own operations in which the owner's document is for this
friend or absent — calling `setMood` twice for the same `(owner, friend)`
pair with accepted mood values succeeds both times and leaves exactly one
stored mood record for the pair, holding the value of the second call. -/
theorem setMood_twice_amended (et : String → Bool) (s : MoodState) (u f : Nat)
    (m1 m2 : String)
    (hm1 : (m1 == "" || !et m1) = false) (hm2 : (m2 == "" || !et m2) = false)
    (hcount : s.moods.countP (fun d => d.user == u) ≤ 1)
    (hfriend : ∀ d ∈ s.moods, d.user = u → d.friend = f) :
    ∃ msg1 r1 s1 msg2 r2 s2,
      setMood et s u f m1 = .ok (msg1, r1, s1) ∧
      setMood et s1 u f m2 = .ok (msg2, r2, s2) ∧
      ∃ d, s2.moods.filter (pairFilter u f) = [d] ∧ d.mood = m2 := by
  obtain ⟨msg1, r1, s1, h1, _, hcount1, hfriend1⟩ :=
    setMood_step et s u f m1 hm1 hcount hfriend
  obtain ⟨msg2, r2, s2, h2, hone2, _, _⟩ :=
    setMood_step et s1 u f m2 hm2 (Nat.le_of_eq hcount1) hfriend1
  exact ⟨msg1, r1, s1, msg2, r2, s2, h1, h2, hone2⟩

/-- Witness for the amended C6 starting from the empty collection with moods
accepted by a concrete emoji test. -/
theorem setMood_twice_amended_witness :
    ∃ msg1 r1 s1 msg2 r2 s2,
      setMood emojiTestCex ⟨[], 0⟩ 1 2 "b" = .ok (msg1, r1, s1) ∧
      setMood emojiTestCex s1 1 2 "c" = .ok (msg2, r2, s2) ∧
      ∃ d, s2.moods.filter (pairFilter 1 2) = [d] ∧ d.mood = "c" :=
  setMood_twice_amended emojiTestCex ⟨[], 0⟩ 1 2 "b" "c"
    (by decide) (by decide) (by decide) (by decide)

/-- States reachable from the empty `moods` collection by the state-changing
MoodMapping operations (`setMood`, `removeMood`; the reads `getMood` and
`getBothMoods` do not change state, and a call that throws leaves the state
unchanged). -/
inductive MoodReachable (et : String → Bool) : MoodState → Prop where
  | empty : MoodReachable et ⟨[], 0⟩
  | set : ∀ (s : MoodState) (u f : Nat) (m msg : String) (r : Option MoodDoc) (s1 : MoodState),
      MoodReachable et s → setMood et s u f m = .ok (msg, r, s1) → MoodReachable et s1
  | remove : ∀ (s : MoodState) (u f : Nat) (msg : String) (s1 : MoodState),
      MoodReachable et s → removeMood s u f = .ok (msg, s1) → MoodReachable et s1

/-- C9: in every state reachable from the empty collection via the
MoodMapping operations, each user has at most one mood document in total
across all friends — because `setMood`'s existence check filters by `user`
alone, it creates a document only when the user has none at all. -/
theorem mood_user_at_most_one (et : String → Bool) (s : MoodState)
    (h : MoodReachable et s) (u : Nat) :
    s.moods.countP (fun d => d.user == u) ≤ 1 := by
  induction h with
  | empty => exact Nat.le_of_lt Nat.one_pos
  | set s0 u0 f0 m msg r s1 _ hstep ih =>
    rw [setMood] at hstep
    cases hguard : (m == "" || !et m) with
    | true => rw [hguard] at hstep; simp at hstep
    | false =>
      rw [hguard] at hstep
      simp only [Bool.false_eq_true, if_false] at hstep
      cases hfind : s0.moods.find? (fun d => d.user == u0) with
      | some d1 =>
        rw [hfind] at hstep
        simp only [Except.ok.injEq, Prod.mk.injEq] at hstep
        obtain ⟨-, -, hs1⟩ := hstep
        rw [← hs1]
        show List.countP (fun d => d.user == u)
            (updateFirst (pairFilter u0 f0) (fun d => { d with mood := m }) s0.moods) ≤ 1
        rw [updateFirst_countP (fun d => d.user == u) (pairFilter u0 f0)
            (fun d => { d with mood := m }) (fun x => rfl)]
        exact ih
      | none =>
        rw [hfind] at hstep
        simp only [Except.ok.injEq, Prod.mk.injEq] at hstep
        obtain ⟨-, -, hs1⟩ := hstep
        rw [← hs1]
        show List.countP (fun d => d.user == u)
            (s0.moods ++ [⟨s0.nextId, u0, f0, m⟩]) ≤ 1
        rw [List.countP_append]
        by_cases hu : u0 = u
        · have hzero : s0.moods.countP (fun d => d.user == u) = 0 :=
            List.countP_eq_zero.mpr fun a ha => hu ▸ List.find?_eq_none.mp hfind a ha
          rw [hzero]
          simp only [List.countP_cons, Nat.zero_add]
          split <;> simp
        · have hone : List.countP (fun d => d.user == u) [(⟨s0.nextId, u0, f0, m⟩ : MoodDoc)] = 0 := by
            simp [List.countP_cons, hu]
          rw [hone]
          simpa using ih
  | remove s0 u0 f0 msg s1 _ hstep ih =>
    rw [removeMood] at hstep
    by_cases hany : s0.moods.any (pairFilter u0 f0) = true
    · rw [if_pos hany] at hstep
      simp only [Except.ok.injEq, Prod.mk.injEq] at hstep
      obtain ⟨-, hs1⟩ := hstep
      rw [← hs1]
      exact Nat.le_trans (deleteFirst_countP_le _ _ s0.moods) ih
    · rw [if_neg hany] at hstep
      simp at hstep

/-- Witness for C9 at the state reached from empty by one successful
`setMood`. -/
theorem mood_user_at_most_one_witness :
    (⟨[⟨0, 1, 2, "b"⟩], 1⟩ : MoodState).moods.countP (fun d => d.user == 1) ≤ 1 :=
  mood_user_at_most_one emojiTestCex ⟨[⟨0, 1, 2, "b"⟩], 1⟩
    (MoodReachable.set ⟨[], 0⟩ 1 2 "b" "Mood set successfully!" (some ⟨0, 1, 2, "b"⟩)
      ⟨[⟨0, 1, 2, "b"⟩], 1⟩ MoodReachable.empty rfl) 1

/-! ## VideoCalling concept (`VideoCallingConcept` in the source) -/

/-- `CallDoc`: caller, recipient, start time, optional end time (plus the
`BaseDoc` id).  No explicit status field exists in this collection. -/
structure CallDoc where
  _id : Nat
  caller : Nat
  recipient : Nat
  startTime : Nat
  endTime : Option Nat
deriving Repr, DecidableEq

/-- State of the `activeCalls` collection, with the fresh-id counter and the
logical clock standing for `Date.now`. -/
structure CallState where
  activeCalls : List CallDoc
  nextId : Nat
  clock : Nat
deriving Repr, DecidableEq

/-- `VideoCallingConcept.startCall(caller, recipient)`: throws `BadValues`
when `caller.equals(recipient)`; otherwise unconditionally creates a call
document with the current time as start time and no end time — there is no
check for pre-existing un-ended calls of either party. -/
def startCall (s : CallState) (caller recipient : Nat) :
    Except ConceptError (String × Option CallDoc × CallState) :=
  if caller == recipient then
    .error (.badValues "Caller and recipient cannot be the same user.")
  else
    let doc : CallDoc := ⟨s.nextId, caller, recipient, s.clock, none⟩
    let calls1 := s.activeCalls ++ [doc]
    .ok ("Call started successfully!", calls1.find? (fun c => c._id == s.nextId),
         ⟨calls1, s.nextId + 1, s.clock + 1⟩)

/-- `VideoCallingConcept.endCall(callId)`: `NotFound` when no call with that
id exists, `BadValues` when the call already has an end time, otherwise sets
the end time to the current time. -/
def endCall (s : CallState) (callId : Nat) :
    Except ConceptError (String × CallState) :=
  match s.activeCalls.find? (fun c => c._id == callId) with
  | none => .error (.notFound "Call not found.")
  | some call =>
    if call.endTime.isSome then
      .error (.badValues "Call has already ended.")
    else
      .ok ("Call ended successfully!",
        ⟨updateFirst (fun c => c._id == callId)
          (fun c => { c with endTime := some s.clock }) s.activeCalls,
         s.nextId, s.clock + 1⟩)

/-- `VideoCallingConcept.getCallStatus(callId)`: the call document, or
`NotFound`. -/
def getCallStatus (s : CallState) (callId : Nat) : Except ConceptError CallDoc :=
  match s.activeCalls.find? (fun c => c._id == callId) with
  | none => .error (.notFound "Call not found.")
  | some call => .ok call

/-- A call document is un-ended and involves the given user. -/
def unendedInvolving (userId : Nat) (c : CallDoc) : Bool :=
  c.endTime.isNone && (c.caller == userId || c.recipient == userId)

/-- C3: `startCall(a, a)` always fails with `BadValues` (and, by exception
semantics, creates no call record); for `a ≠ b` it succeeds and appends
exactly one call record, carrying the current time as start time and no end
time. -/
theorem startCall_spec (s : CallState) (a b : Nat) :
    (a = b → startCall s a b = .error (.badValues "Caller and recipient cannot be the same user.")) ∧
    (a ≠ b → ∃ r s1, startCall s a b = .ok ("Call started successfully!", r, s1) ∧
      s1.activeCalls = s.activeCalls ++ [⟨s.nextId, a, b, s.clock, none⟩]) := by
  constructor
  · intro hab
    rw [startCall, if_pos (by simp [hab])]
  · intro hab
    refine ⟨(s.activeCalls ++ [(⟨s.nextId, a, b, s.clock, none⟩ : CallDoc)]).find?
        (fun c => c._id == s.nextId),
      ⟨s.activeCalls ++ [(⟨s.nextId, a, b, s.clock, none⟩ : CallDoc)], s.nextId + 1, s.clock + 1⟩,
      ?_, rfl⟩
    rw [startCall, if_neg (by simp [hab])]

/-- Witness for C3: the self-call case and the distinct-pair case, each at a
concrete state. -/
theorem startCall_spec_witness :
    startCall ⟨[], 0, 0⟩ 1 1 = .error (.badValues "Caller and recipient cannot be the same user.") ∧
    ∃ r s1, startCall ⟨[], 0, 0⟩ 1 2 = .ok ("Call started successfully!", r, s1) ∧
      s1.activeCalls = [] ++ [⟨0, 1, 2, 0, none⟩] :=
  ⟨(startCall_spec ⟨[], 0, 0⟩ 1 1).1 rfl, (startCall_spec ⟨[], 0, 0⟩ 1 2).2 (by decide)⟩

/-- C2 demonstration state: user `1` is in an un-ended call with user `2`. -/
def callStateCex : CallState := ⟨[⟨0, 1, 2, 0, none⟩], 1, 5⟩

/-- C2 fails on the source: in a state where caller `1` already has an
un-ended call (with `2`), `startCall(1, 3)` succeeds and creates a second
call record, leaving two un-ended calls involving user `1` — the source
checks only `caller.equals(recipient)` and enforces no overlap
precondition. -/
theorem startCall_no_overlap_check :
    callStateCex.activeCalls.countP (unendedInvolving 1) = 1 ∧
    startCall callStateCex 1 3 =
      .ok ("Call started successfully!", some ⟨1, 1, 3, 5, none⟩,
           ⟨[⟨0, 1, 2, 0, none⟩, ⟨1, 1, 3, 5, none⟩], 2, 6⟩) ∧
    (⟨[⟨0, 1, 2, 0, none⟩, ⟨1, 1, 3, 5, none⟩], 2, 6⟩ : CallState).activeCalls.countP
      (unendedInvolving 1) = 2 :=
  ⟨by decide, rfl, by decide⟩

/-- `readOne` on the filter `p` after `partialUpdateOne` on the same filter
with a `p`-preserving patch returns the patched document. -/
theorem find?_updateFirst {α : Type} (p : α → Bool) (g : α → α)
    (hg : ∀ x, p (g x) = p x) :
    ∀ l : List α, (updateFirst p g l).find? p = (l.find? p).map g
  | [] => rfl
  | x :: xs => by
    by_cases hx : p x = true
    · rw [updateFirst_cons, if_pos hx,
        List.find?_cons_of_pos _ (by rw [hg x]; exact hx),
        List.find?_cons_of_pos _ hx]
      rfl
    · rw [updateFirst_cons, if_neg hx, List.find?_cons_of_neg _ hx,
        List.find?_cons_of_neg _ hx]
      exact find?_updateFirst p g hg xs

/-- C4: `endCall(callId)` fails with `NotFound` when no call with that id
exists; fails with `BadValues` (leaving the state unchanged, by exception
semantics) when the call already has an end time; and when the call exists
with no end time it succeeds, sets the end time on that call, and a second
`endCall` on the same id then fails. -/
theorem endCall_spec (s : CallState) (callId : Nat) :
    (s.activeCalls.find? (fun c => c._id == callId) = none →
      endCall s callId = .error (.notFound "Call not found.")) ∧
    (∀ call, s.activeCalls.find? (fun c => c._id == callId) = some call →
      call.endTime.isSome = true →
      endCall s callId = .error (.badValues "Call has already ended.")) ∧
    (∀ call, s.activeCalls.find? (fun c => c._id == callId) = some call →
      call.endTime = none →
      ∃ s1, endCall s callId = .ok ("Call ended successfully!", s1) ∧
        s1.activeCalls = updateFirst (fun c => c._id == callId)
          (fun c => { c with endTime := some s.clock }) s.activeCalls ∧
        endCall s1 callId = .error (.badValues "Call has already ended.")) := by
  refine ⟨fun hnone => ?_, fun call hfind hended => ?_, fun call hfind hopen => ?_⟩
  · rw [endCall, hnone]
  · rw [endCall, hfind]
    simp only [hended, if_true]
  · refine ⟨⟨updateFirst (fun c => c._id == callId)
        (fun c => { c with endTime := some s.clock }) s.activeCalls, s.nextId, s.clock + 1⟩,
      ?_, rfl, ?_⟩
    · rw [endCall, hfind]
      simp only [hopen, Option.isSome_none, Bool.false_eq_true, if_false]
    · rw [endCall]
      show (match (updateFirst (fun c => c._id == callId)
          (fun c => { c with endTime := some s.clock }) s.activeCalls).find?
            (fun c => c._id == callId) with
        | none => Except.error (ConceptError.notFound "Call not found.")
        | some call =>
          if call.endTime.isSome then Except.error (ConceptError.badValues "Call has already ended.")
          else _) = Except.error (ConceptError.badValues "Call has already ended.")
      rw [find?_updateFirst (fun c => c._id == callId)
        (fun c => { c with endTime := some s.clock }) (fun x => rfl) s.activeCalls, hfind]
      simp

/-- Witness for C4: a concrete state with one open call (id `0`) and no call
with id `7`. -/
theorem endCall_spec_witness :
    endCall ⟨[⟨0, 1, 2, 0, none⟩], 1, 5⟩ 7 = .error (.notFound "Call not found.") ∧
    ∃ s1, endCall ⟨[⟨0, 1, 2, 0, none⟩], 1, 5⟩ 0 = .ok ("Call ended successfully!", s1) ∧
      s1.activeCalls = updateFirst (fun c => c._id == 0)
        (fun c => { c with endTime := some 5 }) [⟨0, 1, 2, 0, none⟩] ∧
      endCall s1 0 = .error (.badValues "Call has already ended.") :=
  ⟨(endCall_spec ⟨[⟨0, 1, 2, 0, none⟩], 1, 5⟩ 7).1 (by decide),
   (endCall_spec ⟨[⟨0, 1, 2, 0, none⟩], 1, 5⟩ 0).2.2 ⟨0, 1, 2, 0, none⟩ (by decide) rfl⟩

/-! ## The call routes and the reconciled call-session state

The routes `GET /calls/status`, `PUT /calls/accept` and `PUT /calls/end`
call `VideoCalling.getCallStatusForUser`, `VideoCalling.getPendingCall` and
`VideoCalling.acceptPendingCall` and read a `status` field on call
documents; none of these exist in the `VideoCallingConcept` source file, so
they are modelled here from the spec, over the spec's reconciled call
document carrying one explicit `pending`/`active` state field.  The routes
themselves and the start/end operations follow the source. -/

/-- The spec's reconciled explicit call state field: `pending` or
`active` (ended calls are recognised by their end time). -/
inductive CallStatus where
  | pending
  | active
deriving Repr, DecidableEq, BEq

/-- The reconciled call document: the source's `CallDoc` plus the explicit
`status` field assumed by the composition layer. -/
structure RCallDoc where
  _id : Nat
  caller : Nat
  recipient : Nat
  status : CallStatus
  startTime : Nat
  endTime : Option Nat
deriving Repr, DecidableEq

/-- State of the reconciled `activeCalls` collection. -/
structure RCallState where
  calls : List RCallDoc
  nextId : Nat
  clock : Nat
deriving Repr, DecidableEq

/-- `startCall` over the reconciled document: as in the source
(`BadValues` on a self-call, otherwise create with a start time and no end
time), with the created record `pending` until accepted, per the spec. -/
def rStartCall (s : RCallState) (caller recipient : Nat) :
    Except ConceptError (String × Option RCallDoc × RCallState) :=
  if caller == recipient then
    .error (.badValues "Caller and recipient cannot be the same user.")
  else
    let doc : RCallDoc := ⟨s.nextId, caller, recipient, .pending, s.clock, none⟩
    let calls1 := s.calls ++ [doc]
    .ok ("Call started successfully!", calls1.find? (fun c => c._id == s.nextId),
         ⟨calls1, s.nextId + 1, s.clock + 1⟩)

/-- `endCall` over the reconciled document, as in the source: `NotFound`
when absent, `BadValues` when already ended, otherwise set the end time. -/
def rEndCall (s : RCallState) (callId : Nat) :
    Except ConceptError (String × RCallState) :=
  match s.calls.find? (fun c => c._id == callId) with
  | none => .error (.notFound "Call not found.")
  | some call =>
    if call.endTime.isSome then
      .error (.badValues "Call has already ended.")
    else
      .ok ("Call ended successfully!",
        ⟨updateFirst (fun c => c._id == callId)
          (fun c => { c with endTime := some s.clock }) s.calls,
         s.nextId, s.clock + 1⟩)

/-- Modelled from the spec: `VideoCalling.getCallStatusForUser` is missing
from the source concept; per the spec it "returns the single un-ended call
record involving the user, or none". -/
def getCallStatusForUser (s : RCallState) (userId : Nat) : Option RCallDoc :=
  s.calls.find? (fun c => c.endTime.isNone && (c.caller == userId || c.recipient == userId))

/-- Modelled from the spec: `VideoCalling.getPendingCall` is missing from
the source concept; per the spec it "returns an incoming call with no
explicit active flag yet" — an un-ended call addressed to this user that is
still `pending`. -/
def getPendingCall (s : RCallState) (userId : Nat) : Option RCallDoc :=
  s.calls.find? (fun c => c.endTime.isNone && c.recipient == userId && c.status == CallStatus.pending)

/-- Modelled from the spec: `VideoCalling.acceptPendingCall` is missing from
the source concept; per the spec it "transitions the caller's most recent
un-ended call addressed to this recipient into active status" and "fails if
no pending call is addressed to this user". -/
def acceptPendingCall (s : RCallState) (recipientId : Nat) :
    Except ConceptError (String × RCallState) :=
  match (s.calls.filter
      (fun c => c.endTime.isNone && c.recipient == recipientId &&
        c.status == CallStatus.pending)).getLast? with
  | none => .error (.notFound "No pending call found for this user.")
  | some c =>
    let calls1 := updateFirst (fun d => d._id == c._id)
      (fun d => { d with status := CallStatus.active }) s.calls
    .ok ("Call accepted!", { s with calls := calls1 })

/-- The composed state the call routes act on: the identity directory
(id/username pairs), the friendship edges, and the call collection. -/
structure World where
  users : List (Nat × String)
  friends : List (Nat × Nat)
  calls : RCallState
deriving Repr, DecidableEq

/-- `Authing.getUserById`: resolve an identifier to its username. -/
def getUserById (users : List (Nat × String)) (userId : Nat) : Except ConceptError String :=
  match users.find? (fun u => u.1 == userId) with
  | none => .error (.notFound "User not found!")
  | some u => .ok u.2

/-- `Authing.getUserByUsername` as the routes use it (checked for null by
the caller). -/
def getUserByUsername (users : List (Nat × String)) (username : String) : Option (Nat × String) :=
  users.find? (fun u => u.2 == username)

/-- Modelled from the spec: `Friending.assertAreFriends` is missing from the
source; per the spec it "fails with an authorization error naming both
parties if no edge exists", the edge being symmetric. -/
def assertAreFriends (friends : List (Nat × Nat)) (a b : Nat) (nameA nameB : String) :
    Except ConceptError Unit :=
  if friends.any (fun e => (e.1 == a && e.2 == b) || (e.1 == b && e.2 == a)) then
    .ok ()
  else
    .error (.notAllowed (nameA ++ " and " ++ nameB ++ " are not friends!"))

/-- The JSON shape returned by `GET /calls/status`: the message plus the
optional `status`, `caller`, `recipient` and `otherUser` fields. -/
structure StatusResponse where
  msg : String
  status : Option String := none
  caller : Option String := none
  recipient : Option String := none
  otherUser : Option String := none
deriving Repr, DecidableEq

/-- `Routes.startCall` (`POST /calls`): resolve the caller and the
recipient, check friendship, delegate to `startCall`. -/
def routeStartCall (w : World) (callerId : Nat) (recipient : String) :
    Except ConceptError (String × World) :=
  match getUserById w.users callerId with
  | .error e => .error e
  | .ok callerName =>
    match getUserByUsername w.users recipient with
    | none => .error (.generic ("Recipient with username " ++ recipient ++ " not found."))
    | some ru =>
      match assertAreFriends w.friends callerId ru.1 callerName ru.2 with
      | .error e => .error e
      | .ok _ =>
        match rStartCall w.calls callerId ru.1 with
        | .error e => .error e
        | .ok (msg, _, cs) => .ok (msg, { w with calls := cs })

/-- `Routes.endCall` (`PUT /calls/end`): look up the user's current call,
fail when there is none, otherwise end it by id. -/
def routeEndCall (w : World) (userId : Nat) : Except ConceptError (String × World) :=
  match getCallStatusForUser w.calls userId with
  | none => .error (.generic "You are not currently in any call to end.")
  | some call =>
    match rEndCall w.calls call._id with
    | .error e => .error e
    | .ok (msg, cs) => .ok (msg, { w with calls := cs })

/-- `Routes.getCallStatus` (`GET /calls/status`): report no call, a pending
call (from either side), or an active call, shaping the response as the
source does. -/
def routeGetCallStatus (w : World) (userId : Nat) : Except ConceptError StatusResponse :=
  match getCallStatusForUser w.calls userId with
  | none =>
    match getPendingCall w.calls userId with
    | some pendingCall =>
      match getUserById w.users pendingCall.caller with
      | .error e => .error e
      | .ok callerName =>
        .ok { msg := callerName ++ " is calling you.",
              status := some "pending", caller := some callerName }
    | none => .ok { msg := "You are not in a call and no one is calling you." }
  | some call =>
    let isCaller := call.caller == userId
    let otherUserId := if isCaller then call.recipient else call.caller
    match getUserById w.users otherUserId with
    | .error e => .error e
    | .ok otherName =>
      if call.status == CallStatus.pending then
        if isCaller then
          .ok { msg := "You are ringing " ++ otherName ++ ".",
                status := some "pending", recipient := some otherName }
        else
          .ok { msg := otherName ++ " is calling you.",
                status := some "pending", caller := some otherName }
      else
        .ok { msg := "You are in an active call with " ++ otherName ++ ".",
              status := some "active", otherUser := some otherName }

/-- `Routes.acceptCall` (`PUT /calls/accept`). -/
def routeAcceptCall (w : World) (recipientId : Nat) : Except ConceptError (String × World) :=
  match acceptPendingCall w.calls recipientId with
  | .error e => .error e
  | .ok (msg, cs) => .ok (msg, { w with calls := cs })

/-- The C1 scenario's initial state: `alice` (id 1) and `bob` (id 2) are
friends and no call exists. -/
def scenarioWorld : World := ⟨[(1, "alice"), (2, "bob")], [(1, 2)], ⟨[], 0, 0⟩⟩

/-- The world after `alice` starts a call to `bob`. -/
def scenarioW1 : World :=
  ⟨[(1, "alice"), (2, "bob")], [(1, 2)], ⟨[⟨0, 1, 2, .pending, 0, none⟩], 1, 1⟩⟩

/-- The world after `bob` accepts the call. -/
def scenarioW2 : World :=
  ⟨[(1, "alice"), (2, "bob")], [(1, 2)], ⟨[⟨0, 1, 2, .active, 0, none⟩], 1, 1⟩⟩

/-- The world after `bob` ends the call. -/
def scenarioW3 : World :=
  ⟨[(1, "alice"), (2, "bob")], [(1, 2)], ⟨[⟨0, 1, 2, .active, 0, some 1⟩], 1, 2⟩⟩

/-- C1: with friends `alice` and `bob`, after `alice` starts a call to
`bob`, `GET /calls/status` for `bob` reports status `pending` with caller
`alice`; after `bob` accepts via `PUT /calls/accept`, both sides' status
checks report status `active`; after `bob` ends the call, the status checks
for both report no active call. -/
theorem call_lifecycle_scenario :
    routeStartCall scenarioWorld 1 "bob" = .ok ("Call started successfully!", scenarioW1) ∧
    routeGetCallStatus scenarioW1 2 =
      .ok { msg := "alice is calling you.", status := some "pending", caller := some "alice" } ∧
    routeAcceptCall scenarioW1 2 = .ok ("Call accepted!", scenarioW2) ∧
    routeGetCallStatus scenarioW2 1 =
      .ok { msg := "You are in an active call with bob.", status := some "active",
            otherUser := some "bob" } ∧
    routeGetCallStatus scenarioW2 2 =
      .ok { msg := "You are in an active call with alice.", status := some "active",
            otherUser := some "alice" } ∧
    routeEndCall scenarioW2 2 = .ok ("Call ended successfully!", scenarioW3) ∧
    routeGetCallStatus scenarioW3 1 =
      .ok { msg := "You are not in a call and no one is calling you." } ∧
    routeGetCallStatus scenarioW3 2 =
      .ok { msg := "You are not in a call and no one is calling you." } :=
  ⟨rfl, rfl, rfl, rfl, rfl, rfl, rfl, rfl⟩

end Backend
